import Mathlib

/-!
Shallow embedding of `src/pdf2docx/text/Line.py` (the `Line` entity of the
pdf2docx repository) together with spec-modelled stubs for the collaborators
that are not part of the provided sources (the `Element` base class, the
`TextSpan` / `ImageSpan` variants, the `Spans` collection and the `fitz`
geometry primitives).  Python strings are modelled as lists of characters,
floats as rationals, dictionaries as option-field records, and exceptions as
`Except String`.
-/

namespace Pdf2Docx

/-- Python strings are sequences of characters. -/
abbrev PyStr := List Char

/-- The ASCII whitespace characters removed by Python `str.strip()`. -/
def isPyWhitespace (c : Char) : Bool :=
  c = ' ' || c = '\t' || c = '\n' || c = '\x0b' || c = '\x0c' || c = '\r'

/-- Python `str.strip()`: remove whitespace from both ends. -/
def pyStrip (s : PyStr) : PyStr :=
  ((s.dropWhile isPyWhitespace).reverse.dropWhile isPyWhitespace).reverse

/-- Python `str.split(' ')`: split on every single space, keeping empty
pieces; the empty string yields `[""]`. -/
def pySplitOnSpace : PyStr → List PyStr
  | [] => [[]]
  | c :: rest =>
      let r := pySplitOnSpace rest
      if c = ' ' then [] :: r
      else
        match r with
        | [] => [[c]]
        | w :: ws => (c :: w) :: ws

/-- Python `' '.join(words)`. -/
def pyJoinSpace (ws : List PyStr) : PyStr :=
  List.intercalate [' '] ws

/-- A `fitz.Rect`: axis-aligned rectangle given by two corners. -/
structure Rect where
  x0 : ℚ
  y0 : ℚ
  x1 : ℚ
  y1 : ℚ
  deriving DecidableEq, Repr

/-- `fitz.Rect.contains`: the argument rectangle lies inside `outer`. -/
def Rect.containsRect (outer inner : Rect) : Bool :=
  decide (outer.x0 ≤ inner.x0) && decide (outer.y0 ≤ inner.y0) &&
  decide (inner.x1 ≤ outer.x1) && decide (inner.y1 ≤ outer.y1)

/-- Two rectangles share no area (their closed interiors do not overlap). -/
def Rect.disjoint (r s : Rect) : Bool :=
  decide (r.x1 ≤ s.x0) || decide (s.x1 ≤ r.x0) ||
  decide (r.y1 ≤ s.y0) || decide (s.y1 ≤ r.y0)

/-- Smallest rectangle covering both arguments (`fitz` rectangle union). -/
def Rect.unionRect (a b : Rect) : Rect :=
  ⟨min a.x0 b.x0, min a.y0 b.y0, max a.x1 b.x1, max a.y1 b.y1⟩

/-- Intersection rectangle of the two arguments. -/
def Rect.interRect (a b : Rect) : Rect :=
  ⟨max a.x0 b.x0, max a.y0 b.y0, min a.x1 b.x1, min a.y1 b.y1⟩

/-- A rectangle with positive area. -/
def Rect.positiveArea (r : Rect) : Bool :=
  decide (r.x0 < r.x1) && decide (r.y0 < r.y1)

/-- A pure rotation `fitz.Matrix` (translation components are zero). -/
structure Matrix2 where
  a : ℚ
  b : ℚ
  c : ℚ
  d : ℚ
  deriving DecidableEq, Repr

/-- `fitz.Point(p) * m`: apply the matrix on the right of a row vector. -/
def Matrix2.apply (m : Matrix2) (p : ℚ × ℚ) : ℚ × ℚ :=
  (p.1 * m.a + p.2 * m.c, p.1 * m.b + p.2 * m.d)

/-- The identity matrix: the default pure rotation of an unrotated page. -/
def Matrix2.identityMatrix : Matrix2 := ⟨1, 0, 0, 1⟩

/-- `common.share.TextDirection`, restricted to the members `Line` uses. -/
inductive TextDirection where
  | LEFT_RIGHT
  | BOTTOM_TOP
  | IGNORE
  deriving DecidableEq, Repr

/-- The attributes of a `TextSpan` that `Line` reads: bounding box, text and
the spacing-condensation flag (a float, truthy iff nonzero). -/
structure TextSpanData where
  bbox : Rect
  text : PyStr
  condense_spacing : ℚ
  deriving DecidableEq, Repr

/-- A span variant owned by a `Line`: text-bearing (`TextSpan`) or
image-bearing (`ImageSpan`, of which `Line` only reads the bounding box). -/
inductive Span where
  | textSpan (ts : TextSpanData)
  | imageSpan (bbox : Rect)
  deriving DecidableEq, Repr

/-- Bounding box of a span. -/
def Span.bbox : Span → Rect
  | .textSpan ts => ts.bbox
  | .imageSpan b => b

/-- `span.text`: an image span is translated to the placeholder `<image>`
(per the docstring of `Line.text`). -/
def Span.textOf : Span → PyStr
  | .textSpan ts => ts.text
  | .imageSpan _ => "<image>".toList

/-- `isinstance(span, TextSpan)`. -/
def Span.isTextSpan : Span → Bool
  | .textSpan _ => true
  | .imageSpan _ => false

/-- Modelled from the spec: `TextSpan.intersects` / `ImageSpan.intersects`
(the span sources are not under `src/`).  Per the Span Variant contract
`intersects(region) -> Span|empty`, the result is empty when the span shares
no area with the rectangle and otherwise the portion overlapping it. -/
def Span.intersectsRect (s : Span) (r : Rect) : Option Span :=
  if Rect.disjoint (Span.bbox s) r then none
  else
    match s with
    | .textSpan ts => some (.textSpan { ts with bbox := Rect.interRect ts.bbox r })
    | .imageSpan b => some (.imageSpan (Rect.interRect b r))

/-- Modelled from the spec: `Spans.append` (`text/Spans.py` is not under
`src/`).  Per the invariant "`spans` never contains a `None`/empty
placeholder; empty clip results are simply omitted", appending an empty
result leaves the collection unchanged. -/
def Spans.appendOpt (spans : List Span) (s : Option Span) : List Span :=
  match s with
  | none => spans
  | some sp => spans ++ [sp]

/-- A raw line mapping (Python `dict`), with the keys `Line.__init__` and
`Line.store` touch; a span serializes to itself per the Span Variant
`serialize()/restore()` round-trip contract. -/
structure Raw where
  bbox : Option Rect
  wmode : Option ℤ
  dir : Option (ℚ × ℚ)
  line_break : Option ℤ
  tab_stop : Option ℤ
  spans : Option (List Span)
  deriving DecidableEq, Repr

/-- The empty mapping `{}`. -/
def Raw.emptyRaw : Raw := ⟨none, none, none, none, none, none⟩

/-- The `Line` object: writing mode, direction, flags, the write-once
original parent id `_pid`, and the owned spans. -/
structure Line where
  wmode : ℤ
  dir : ℚ × ℚ
  line_break : ℤ
  tab_stop : ℤ
  _pid : Option ℤ
  spans : List Span
  deriving DecidableEq, Repr

/-- `Line.__init__(raw)`, parametrised by the page's pure rotation matrix
`R` (`Element.pure_rotation_matrix`, not under `src/`; the identity on an
unrotated page).  Returns the constructed line together with the caller's
mapping after construction: `__init__` pops the key `bbox` in place. -/
def Line.construct (R : Matrix2) (raw : Raw) : Line × Raw :=
  let wmode := raw.wmode.getD 0
  let dir :=
    match raw.dir with
    | some d => Matrix2.apply R d
    | none => ((1 : ℚ), (0 : ℚ))
  let lineBreak := raw.line_break.getD 0
  let tabStop := raw.tab_stop.getD 0
  let raw2 := { raw with bbox := none }
  let spans := raw2.spans.getD []
  (⟨wmode, dir, lineBreak, tabStop, none, spans⟩, raw2)

/-- `Line.text`: joining span text (image spans become `<image>`). -/
def Line.text (line : Line) : PyStr :=
  (line.spans.map Span.textOf).flatten

/-- `Line.raw_text`: joining span text with image spans ignored. -/
def Line.raw_text (line : Line) : PyStr :=
  (line.spans.filter Span.isTextSpan |>.map Span.textOf).flatten

/-- The loop body of `Line.white_space_only`: return `false` at the first
non-text span or the first span whose stripped text is non-empty. -/
def whiteSpaceLoop : List Span → Bool
  | [] => true
  | s :: rest =>
      match s with
      | .imageSpan _ => false
      | .textSpan ts => if pyStrip ts.text ≠ [] then false else whiteSpaceLoop rest

/-- `Line.white_space_only`. -/
def Line.white_space_only (line : Line) : Bool :=
  whiteSpaceLoop line.spans

/-- `Line.text_direction`: `dir[0] == 1.0` gives left-to-right, otherwise
`dir[1] == -1.0` gives bottom-to-top, otherwise ignore. -/
def Line.text_direction (line : Line) : TextDirection :=
  if line.dir.1 = 1 then TextDirection.LEFT_RIGHT
  else if line.dir.2 = -1 then TextDirection.BOTTOM_TOP
  else TextDirection.IGNORE

/-- The Python error raised by `int(None)` in the `pid` setter. -/
def intOfNoneError : String :=
  "TypeError: int() argument cannot be NoneType"

/-- `int(x)` on an optional integer: raises a `TypeError` on `None`. -/
def intCoerce : Option ℤ → Except String ℤ
  | none => Except.error intOfNoneError
  | some n => Except.ok n

/-- The `pid` setter: `if self._pid is None: self._pid = int(pid)`.  When the
id is already set nothing happens (and `int` is not called); when it is unset
the assigned value is coerced with `int`, which fails on `None`. -/
def Line.pidSet (line : Line) (p : Option ℤ) : Except String Line :=
  match line._pid with
  | some _ => Except.ok line
  | none => do
      let k ← intCoerce p
      Except.ok { line with _pid := some k }

/-- `Line.same_source_parent`: `False` when `self.pid` is `None`, otherwise
`self.pid == line.pid`. -/
def Line.same_source_parent (line other : Line) : Bool :=
  match line._pid with
  | none => false
  | some p => decide (other._pid = some p)

/-- `Line.store()`: the serialized mapping.  The base `Element.store`
scaffold is modelled from the spec (`common/Element.py` is not under
`src/`): per §4.6 the mapping carries writing mode, direction, the two flags
and the serialized spans, and `bbox` is not stored directly. -/
def Line.store (line : Line) : Raw :=
  { bbox := none
    wmode := some line.wmode
    dir := some line.dir
    line_break := some line.line_break
    tab_stop := some line.tab_stop
    spans := some line.spans }

/-- Union of the bounding boxes of a span list; the degenerate zero
rectangle when the list is empty. -/
def spanListBBox : List Span → Rect
  | [] => ⟨0, 0, 0, 0⟩
  | s :: rest => rest.foldl (fun acc sp => Rect.unionRect acc (Span.bbox sp)) (Span.bbox s)

/-- `Line.bbox`, modelled from the spec: derived in the `Element` base class
(not under `src/`) as the union of the owned spans' bounding boxes. -/
def Line.bbox (line : Line) : Rect :=
  spanListBBox line.spans

/-- `Element.copy`, modelled from the spec: a deep duplication; with value
semantics it is the identity. -/
def Line.copy (line : Line) : Line := line

/-- `Line.intersects(rect)`: fast path returns a copy when the line's
bounding box is contained in `rect`; otherwise a fresh line is built with
the same `wmode`, the same `dir`, the propagated `pid` (which raises a
`TypeError` when the source pid is unset, since the setter calls
`int(None)`), and every span's own clip appended (empty clips omitted). -/
def Line.intersects (line : Line) (rect : Rect) : Except String Line :=
  if Rect.containsRect rect (Line.bbox line) then Except.ok (Line.copy line)
  else do
    let l0 := (Line.construct Matrix2.identityMatrix
      { Raw.emptyRaw with wmode := some line.wmode }).1
    let l1 := { l0 with dir := line.dir }
    let l2 ← Line.pidSet l1 line._pid
    let finalSpans := line.spans.foldl
      (fun acc s => Spans.appendOpt acc (Span.intersectsRect s rect)) l2.spans
    Except.ok { l2 with spans := finalSpans }

/-- One emission to the output sink (`python-docx` paragraph): a tab run, a
text run carrying its spacing condensation, an image run, or the
terminating line-break run `p.add_run(chr(10))`. -/
inductive Run where
  | tab
  | textRun (text : PyStr) (condense_spacing : ℚ)
  | imageRun (bbox : Rect)
  | breakRun
  deriving DecidableEq, Repr

/-- Modelled from the spec: `TextSpan.make_docx` / `ImageSpan.make_docx`
(the span sources are not under `src/`); per the Span Variant contract
`to_output_run(sink)` each span appends its own run to the sink. -/
def Span.runsOf : Span → List Run
  | .textSpan ts => [Run.textRun ts.text ts.condense_spacing]
  | .imageSpan b => [Run.imageRun b]

/-- The tail-preservation split of `Line.make_docx`: split the stripped text
on single spaces, join the last two words with one space, cut off the last
`len(tail)+1` characters (`text[:-num]` / `text[-num:]` with Python's
clamping of negative slices). -/
def condenseSplit (text : PyStr) : PyStr × PyStr :=
  let words := pySplitOnSpace (pyStrip text)
  let last2 := pyJoinSpace (words.drop (words.length - 2))
  let num := last2.length + 1
  (text.take (text.length - num), text.drop (text.length - num))

/-- The per-span emissions of `Line.make_docx`: a non-text span or a text
span without spacing condensation emits itself directly; a condensation
flagged text span is split, the head re-rendered with condensation disabled
and emitted only if non-empty, then the tail with the original condensation
emitted only if non-empty. -/
def Span.emitRuns (s : Span) : List Run :=
  match s with
  | .imageSpan b => [Run.imageRun b]
  | .textSpan ts =>
      if ts.condense_spacing = 0 then Span.runsOf (.textSpan ts)
      else
        let ht := condenseSplit ts.text
        (if ht.1 ≠ [] then [Run.textRun ht.1 0] else []) ++
        (if ht.2 ≠ [] then [Run.textRun ht.2 ts.condense_spacing] else [])

/-- `Line.make_docx(p)`: append to the sink `p` a tab run when `tab_stop` is
truthy, then each span's runs in order, then a line-break run when
`line_break` is truthy.  Returns the sink after all appends. -/
def Line.make_docx (line : Line) (p : List Run) : List Run :=
  let p1 := if line.tab_stop ≠ 0 then p ++ [Run.tab] else p
  let p2 := line.spans.foldl (fun acc s => acc ++ Span.emitRuns s) p1
  if line.line_break ≠ 0 then p2 ++ [Run.breakRun] else p2

/-- `Line(line.store())`: restoring a line from its own serialized mapping,
on an unrotated page (identity pure rotation). -/
def Line.restoredCopy (line : Line) : Line :=
  (Line.construct Matrix2.identityMatrix (Line.store line)).1

section Theorems

/-- Helper: the loop of `white_space_only` accepts a span list iff every
span is text-bearing with blank stripped text. -/
theorem whiteSpaceLoop_iff_all (l : List Span) :
    whiteSpaceLoop l = true ↔
      ∀ s ∈ l, Span.isTextSpan s = true ∧ pyStrip (Span.textOf s) = [] := by
  induction l with
  | nil => simp [whiteSpaceLoop]
  | cons s rest ih =>
      cases s with
      | imageSpan b => simp [whiteSpaceLoop, Span.isTextSpan]
      | textSpan ts =>
          by_cases h : pyStrip ts.text = []
          · simp [whiteSpaceLoop, h, Span.isTextSpan, Span.textOf, ih]
          · simp [whiteSpaceLoop, h, Span.isTextSpan, Span.textOf]

/-- C2 counterexample: the direction vector `[1,1]` differs from both
canonical vectors, yet `text_direction` classifies it as left-to-right, not
as ignorable: only the first component is inspected for the left-to-right
case. -/
theorem claim2_counterexample :
    Line.text_direction ⟨0, ((1 : ℚ), (1 : ℚ)), 0, 0, none, []⟩ = TextDirection.LEFT_RIGHT
    ∧ ((1 : ℚ), (1 : ℚ)) ≠ ((1 : ℚ), (0 : ℚ))
    ∧ ((1 : ℚ), (1 : ℚ)) ≠ ((0 : ℚ), (-1 : ℚ))
    ∧ TextDirection.LEFT_RIGHT ≠ TextDirection.IGNORE := by
  refine ⟨rfl, by decide, by decide, by decide⟩

/-- C2 (amended): `text_direction` is a component test, not an exact vector
match: any direction whose first component is exactly 1 is left-to-right;
otherwise second component exactly -1 is bottom-to-top; otherwise
ignorable.  In particular `[1,0]` is left-to-right, `[0,-1]` is
bottom-to-top and `[0,1]` is ignorable. -/
theorem claim2_text_direction_componentwise (line : Line) :
    (Line.text_direction line = TextDirection.LEFT_RIGHT ↔ line.dir.1 = 1)
    ∧ (Line.text_direction line = TextDirection.BOTTOM_TOP ↔
        (line.dir.1 ≠ 1 ∧ line.dir.2 = -1))
    ∧ (Line.text_direction line = TextDirection.IGNORE ↔
        (line.dir.1 ≠ 1 ∧ line.dir.2 ≠ -1)) := by
  unfold Line.text_direction
  by_cases h1 : line.dir.1 = 1 <;> by_cases h2 : line.dir.2 = -1 <;> simp [h1, h2]

/-- C4: restoring a Line from its own stored mapping preserves the writing
mode, the direction, the line-break and tab-stop flags, the raw text, and
the spans themselves (hence their count and order). -/
theorem claim4_store_restore_round_trip (line : Line) :
    (Line.restoredCopy line).wmode = line.wmode
    ∧ (Line.restoredCopy line).dir = line.dir
    ∧ (Line.restoredCopy line).line_break = line.line_break
    ∧ (Line.restoredCopy line).tab_stop = line.tab_stop
    ∧ Line.raw_text (Line.restoredCopy line) = Line.raw_text line
    ∧ (Line.restoredCopy line).spans = line.spans := by
  refine ⟨rfl, ?_, rfl, rfl, rfl, rfl⟩
  show Matrix2.apply Matrix2.identityMatrix line.dir = line.dir
  simp [Matrix2.apply, Matrix2.identityMatrix]

/-- C5: the original parent id is write-once: a freshly constructed Line
has it unset; the first assignment of an integer takes effect; any later
assignment attempt on a Line whose id is already set is a silent no-op. -/
theorem claim5_pid_write_once (R : Matrix2) (raw : Raw) (line : Line) (k : ℤ)
    (p : Option ℤ) :
    ((Line.construct R raw).1)._pid = none
    ∧ (line._pid = none →
        Line.pidSet line (some k) = Except.ok { line with _pid := some k })
    ∧ (line._pid = some k → Line.pidSet line p = Except.ok line) := by
  refine ⟨rfl, ?_, ?_⟩
  · intro h
    simp only [Line.pidSet, h, intCoerce]
    rfl
  · intro h
    simp [Line.pidSet, h]

/-- C5 witness: setting the unset id to 7 stores 7; a second attempt to set
3 leaves it at 7. -/
theorem claim5_pid_write_once_witness :
    Line.pidSet ⟨0, (1, 0), 0, 0, none, []⟩ (some 7)
      = Except.ok ⟨0, (1, 0), 0, 0, some 7, []⟩
    ∧ Line.pidSet ⟨0, (1, 0), 0, 0, some 7, []⟩ (some 3)
      = Except.ok ⟨0, (1, 0), 0, 0, some 7, []⟩ := by
  exact ⟨(claim5_pid_write_once Matrix2.identityMatrix Raw.emptyRaw
            ⟨0, (1, 0), 0, 0, none, []⟩ 7 (some 7)).2.1 rfl,
         (claim5_pid_write_once Matrix2.identityMatrix Raw.emptyRaw
            ⟨0, (1, 0), 0, 0, some 7, []⟩ 7 (some 3)).2.2 rfl⟩

/-- C6: `same_source_parent` is false whenever the receiver's id is unset
(even when both are unset), and with the receiver's id set to `p` it is true
iff the other Line's id is also `p`. -/
theorem claim6_same_source_parent (a b : Line) :
    (a._pid = none → Line.same_source_parent a b = false)
    ∧ ∀ p : ℤ, a._pid = some p →
        (Line.same_source_parent a b = true ↔ b._pid = some p) := by
  constructor
  · intro h
    simp [Line.same_source_parent, h]
  · intro p h
    simp [Line.same_source_parent, h]

/-- C6 witness: two Lines with unset ids do not share a source parent; two
Lines with id 7 do. -/
theorem claim6_same_source_parent_witness :
    Line.same_source_parent ⟨0, (1, 0), 0, 0, none, []⟩ ⟨0, (1, 0), 0, 0, none, []⟩ = false
    ∧ Line.same_source_parent ⟨0, (1, 0), 0, 0, some 7, []⟩
        ⟨0, (1, 0), 0, 0, some 7, []⟩ = true := by
  exact ⟨(claim6_same_source_parent _ ⟨0, (1, 0), 0, 0, none, []⟩).1 rfl,
         ((claim6_same_source_parent ⟨0, (1, 0), 0, 0, some 7, []⟩
             ⟨0, (1, 0), 0, 0, some 7, []⟩).2 7 rfl).mpr rfl⟩

/-- C9: `white_space_only` is true iff every owned span is text-bearing
with blank stripped text; a Line whose only span is a text span with
content `"   "` reports true, and adding one image span makes it false. -/
theorem claim9_white_space_only (line : Line) :
    (Line.white_space_only line = true ↔
      ∀ s ∈ line.spans, Span.isTextSpan s = true ∧ pyStrip (Span.textOf s) = [])
    ∧ Line.white_space_only
        ⟨0, (1, 0), 0, 0, none, [Span.textSpan ⟨⟨0, 0, 1, 1⟩, "   ".toList, 0⟩]⟩ = true
    ∧ Line.white_space_only
        ⟨0, (1, 0), 0, 0, none, [Span.textSpan ⟨⟨0, 0, 1, 1⟩, "   ".toList, 0⟩,
          Span.imageSpan ⟨0, 0, 1, 1⟩]⟩ = false := by
  exact ⟨whiteSpaceLoop_iff_all line.spans, by decide, by decide⟩

/-- C10: construction from a raw mapping removes the `bbox` key from the
caller's mapping in place and leaves every other key unchanged. -/
theorem claim10_construct_pops_bbox (R : Matrix2) (raw : Raw) :
    ((Line.construct R raw).2).bbox = none
    ∧ ((Line.construct R raw).2).wmode = raw.wmode
    ∧ ((Line.construct R raw).2).dir = raw.dir
    ∧ ((Line.construct R raw).2).line_break = raw.line_break
    ∧ ((Line.construct R raw).2).tab_stop = raw.tab_stop
    ∧ ((Line.construct R raw).2).spans = raw.spans := by
  exact ⟨rfl, rfl, rfl, rfl, rfl, rfl⟩

/-- Helper: containment of a union gives containment of the left part. -/
theorem contains_of_contains_union_left (r a b : Rect)
    (h : Rect.containsRect r (Rect.unionRect a b) = true) :
    Rect.containsRect r a = true := by
  simp only [Rect.containsRect, Rect.unionRect, Bool.and_eq_true, decide_eq_true_eq] at h ⊢
  obtain ⟨⟨⟨h1, h2⟩, h3⟩, h4⟩ := h
  exact ⟨⟨⟨le_trans h1 (min_le_left _ _), le_trans h2 (min_le_left _ _)⟩,
    le_trans (le_max_left _ _) h3⟩, le_trans (le_max_left _ _) h4⟩

/-- Helper: containment of a fold of unions gives containment of the
starting rectangle. -/
theorem contains_of_contains_foldl_union (r : Rect) (l : List Span) (acc : Rect)
    (h : Rect.containsRect r
      (l.foldl (fun a sp => Rect.unionRect a (Span.bbox sp)) acc) = true) :
    Rect.containsRect r acc = true := by
  induction l generalizing acc with
  | nil => simpa using h
  | cons s rest ih =>
      exact contains_of_contains_union_left _ _ _
        (ih (Rect.unionRect acc (Span.bbox s)) (by simpa using h))

/-- Helper: a positive-area rectangle sharing no area with `r` is not
contained in `r`. -/
theorem disjoint_positive_not_contained (r s : Rect)
    (hd : Rect.disjoint s r = true) (hp : Rect.positiveArea s = true)
    (hc : Rect.containsRect r s = true) : False := by
  simp only [Rect.disjoint, Rect.positiveArea, Rect.containsRect,
    Bool.and_eq_true, Bool.or_eq_true, decide_eq_true_eq] at hd hp hc
  obtain ⟨⟨⟨c1, c2⟩, c3⟩, c4⟩ := hc
  obtain ⟨p1, p2⟩ := hp
  rcases hd with ((h | h) | h) | h <;> linarith

/-- Helper: a span sharing no area with the rectangle clips to empty. -/
theorem intersectsRect_eq_none (s : Span) (rect : Rect)
    (h : Rect.disjoint (Span.bbox s) rect = true) :
    Span.intersectsRect s rect = none := by
  simp [Span.intersectsRect, h]

/-- Helper: folding the empty-omitting append over all-empty clip results
leaves the accumulator unchanged. -/
theorem foldl_appendOpt_none (rect : Rect) (l : List Span) (acc : List Span)
    (h : ∀ s ∈ l, Span.intersectsRect s rect = none) :
    l.foldl (fun a s => Spans.appendOpt a (Span.intersectsRect s rect)) acc = acc := by
  induction l generalizing acc with
  | nil => rfl
  | cons s rest ih =>
      have hs := h s (by simp)
      simp only [List.foldl_cons, hs, Spans.appendOpt]
      exact ih acc (fun x hx => h x (by simp [hx]))

/-- C1 counterexample: a Line whose original parent id was never set, with
one positive-area span sharing no area with the query rectangle: the claim
says `intersects` never fails there, but the slow clipping path propagates
the unset pid through the setter, which evaluates `int(None)` and raises a
`TypeError`. -/
theorem claim1_counterexample :
    Line.intersects
        ⟨0, (1, 0), 0, 0, none, [Span.textSpan ⟨⟨0, 0, 1, 1⟩, "a".toList, 0⟩]⟩
        ⟨5, 5, 6, 6⟩
      = Except.error intOfNoneError
    ∧ Rect.disjoint ⟨0, 0, 1, 1⟩ ⟨5, 5, 6, 6⟩ = true := by
  exact ⟨rfl, by decide⟩

/-- C1 (amended): provided the Line's original parent id has been set,
clipping against a rectangle sharing no area with any of the Line's
(positive-area) span content succeeds and returns a Line with zero spans;
with the id unset the slow clipping path instead raises a `TypeError` from
`int(None)` in the pid setter. -/
theorem claim1_intersects_disjoint (line : Line) (rect : Rect) (k : ℤ)
    (hpid : line._pid = some k)
    (hpos : ∀ s ∈ line.spans, Rect.positiveArea (Span.bbox s) = true)
    (hdisj : ∀ s ∈ line.spans, Rect.disjoint (Span.bbox s) rect = true) :
    Except.map (fun l => l.spans) (Line.intersects line rect)
      = Except.ok ([] : List Span) := by
  cases hc : Rect.containsRect rect (Line.bbox line) with
  | true =>
      cases hsp : line.spans with
      | nil =>
          simp [Line.intersects, hc, Line.copy, Except.map, hsp]
      | cons s rest =>
          exfalso
          have hb := hc
          rw [Line.bbox, hsp] at hb
          simp only [spanListBBox] at hb
          exact disjoint_positive_not_contained rect (Span.bbox s)
            (hdisj s (by simp [hsp])) (hpos s (by simp [hsp]))
            (contains_of_contains_foldl_union rect rest (Span.bbox s) hb)
  | false =>
      have hfold := foldl_appendOpt_none rect line.spans []
        (fun s hs => intersectsRect_eq_none s rect (hdisj s hs))
      simp only [Line.intersects, hc, Bool.false_eq_true, if_false, hpid]
      simp only [Line.pidSet, Line.construct, intCoerce, Raw.emptyRaw,
        Bind.bind, Except.bind, Except.map]
      simp [hfold]

/-- C1 witness for the amended theorem: a Line with pid 7 and one span far
from the query rectangle clips to a Line with zero spans. -/
theorem claim1_intersects_disjoint_witness :
    Except.map (fun l => l.spans)
      (Line.intersects
        ⟨0, (1, 0), 0, 0, some 7, [Span.textSpan ⟨⟨0, 0, 1, 1⟩, "a".toList, 0⟩]⟩
        ⟨5, 5, 6, 6⟩)
      = Except.ok ([] : List Span) := by
  exact claim1_intersects_disjoint
    ⟨0, (1, 0), 0, 0, some 7, [Span.textSpan ⟨⟨0, 0, 1, 1⟩, "a".toList, 0⟩]⟩
    ⟨5, 5, 6, 6⟩ 7 rfl (by decide) (by decide)

/-- C8: when the query rectangle contains the Line's bounding box,
`intersects` returns an exact copy of the Line, with identical text and
identical span count. -/
theorem claim8_intersects_containment (line : Line) (rect : Rect)
    (h : Rect.containsRect rect (Line.bbox line) = true) :
    Line.intersects line rect = Except.ok (Line.copy line)
    ∧ Line.text (Line.copy line) = Line.text line
    ∧ (Line.copy line).spans.length = line.spans.length := by
  refine ⟨?_, rfl, rfl⟩
  simp [Line.intersects, h]

/-- C8 witness: a rectangle containing the single span's box returns the
line unchanged. -/
theorem claim8_intersects_containment_witness :
    Line.intersects
        ⟨0, (1, 0), 0, 0, none, [Span.textSpan ⟨⟨1, 1, 2, 2⟩, "a".toList, 0⟩]⟩
        ⟨0, 0, 10, 10⟩
      = Except.ok (Line.copy
          ⟨0, (1, 0), 0, 0, none, [Span.textSpan ⟨⟨1, 1, 2, 2⟩, "a".toList, 0⟩]⟩)
    ∧ Line.text (Line.copy
          ⟨0, (1, 0), 0, 0, none, [Span.textSpan ⟨⟨1, 1, 2, 2⟩, "a".toList, 0⟩]⟩)
        = Line.text ⟨0, (1, 0), 0, 0, none, [Span.textSpan ⟨⟨1, 1, 2, 2⟩, "a".toList, 0⟩]⟩
    ∧ (Line.copy
          ⟨0, (1, 0), 0, 0, none, [Span.textSpan ⟨⟨1, 1, 2, 2⟩, "a".toList, 0⟩]⟩).spans.length
        = [Span.textSpan (⟨⟨1, 1, 2, 2⟩, "a".toList, 0⟩ : TextSpanData)].length := by
  exact claim8_intersects_containment
    ⟨0, (1, 0), 0, 0, none, [Span.textSpan ⟨⟨1, 1, 2, 2⟩, "a".toList, 0⟩]⟩
    ⟨0, 0, 10, 10⟩ (by decide)

/-- C3: the tail-preservation split is lossless for every text —
`head_text + tail_text` reconstructs the original exactly (also with fewer
than two words, where the head may be empty); on `"Hello world foo"` it
yields head `"Hello"` and tail `" world foo"`; and for any
condensation-flagged text span the emitted runs are the head (only if
non-empty, condensation disabled) then the tail (only if non-empty,
condensation retained). -/
theorem claim3_condense_split_lossless (text : PyStr) (ts : TextSpanData)
    (h : ts.condense_spacing ≠ 0) :
    (condenseSplit text).1 ++ (condenseSplit text).2 = text
    ∧ condenseSplit "Hello world foo".toList = ("Hello".toList, " world foo".toList)
    ∧ Span.emitRuns (Span.textSpan ts) =
        (if (condenseSplit ts.text).1 ≠ [] then
          [Run.textRun (condenseSplit ts.text).1 0] else []) ++
        (if (condenseSplit ts.text).2 ≠ [] then
          [Run.textRun (condenseSplit ts.text).2 ts.condense_spacing] else []) := by
  refine ⟨List.take_append_drop _ _, by decide, ?_⟩
  simp only [Span.emitRuns, if_neg h]

/-- C3 witness: the split and the two emitted runs on `"Hello world foo"`
with condensation 1. -/
theorem claim3_condense_split_lossless_witness :
    (condenseSplit "Hello world foo".toList).1
        ++ (condenseSplit "Hello world foo".toList).2 = "Hello world foo".toList
    ∧ Span.emitRuns (Span.textSpan ⟨⟨0, 0, 1, 1⟩, "Hello world foo".toList, 1⟩) =
        [Run.textRun "Hello".toList 0, Run.textRun " world foo".toList 1] := by
  have h := claim3_condense_split_lossless "Hello world foo".toList
    ⟨⟨0, 0, 1, 1⟩, "Hello world foo".toList, 1⟩ (by decide)
  exact ⟨h.1, h.2.2.trans (by decide)⟩

/-- Helper: the span-emission fold appends each span's runs in order. -/
theorem foldl_emit_append (l : List Span) (p : List Run) :
    l.foldl (fun acc s => acc ++ Span.emitRuns s) p
      = p ++ (l.map Span.emitRuns).flatten := by
  induction l generalizing p with
  | nil => simp
  | cons s rest ih => simp [ih, List.append_assoc]

/-- C7: `make_docx` appends to the sink a tab run iff `tab_stop` is set,
then every span's runs in span order, then a line-break run iff
`line_break` is set; in particular with both flags set and two spans the
sink receives tab, span-1 runs, span-2 runs, line-break, in that order. -/
theorem claim7_make_docx_ordering (line : Line) (p : List Run) :
    Line.make_docx line p =
      p ++ (if line.tab_stop ≠ 0 then [Run.tab] else [])
        ++ (line.spans.map Span.emitRuns).flatten
        ++ (if line.line_break ≠ 0 then [Run.breakRun] else [])
    ∧ (line.tab_stop ≠ 0 → line.line_break ≠ 0 →
        ∀ s1 s2 : Span, line.spans = [s1, s2] →
          Line.make_docx line p =
            p ++ [Run.tab] ++ Span.emitRuns s1 ++ Span.emitRuns s2 ++ [Run.breakRun]) := by
  have key : Line.make_docx line p =
      p ++ (if line.tab_stop ≠ 0 then [Run.tab] else [])
        ++ (line.spans.map Span.emitRuns).flatten
        ++ (if line.line_break ≠ 0 then [Run.breakRun] else []) := by
    unfold Line.make_docx
    by_cases t : line.tab_stop ≠ 0 <;> by_cases b : line.line_break ≠ 0 <;>
      simp [t, b, foldl_emit_append, List.append_assoc]
  refine ⟨key, ?_⟩
  intro ht hb s1 s2 hs
  rw [key, hs]
  simp [ht, hb, List.append_assoc]

/-- C7 witness: a Line with both flags set and two plain text spans emits
tab, the first text run, the second text run, and the line break. -/
theorem claim7_make_docx_ordering_witness :
    Line.make_docx
        ⟨0, (1, 0), 1, 1, some 1,
          [Span.textSpan ⟨⟨0, 0, 1, 1⟩, "ab".toList, 0⟩,
           Span.textSpan ⟨⟨1, 0, 2, 1⟩, "cd".toList, 0⟩]⟩ [] =
      [Run.tab, Run.textRun "ab".toList 0, Run.textRun "cd".toList 0, Run.breakRun] := by
  have h := (claim7_make_docx_ordering
      ⟨0, (1, 0), 1, 1, some 1,
        [Span.textSpan ⟨⟨0, 0, 1, 1⟩, "ab".toList, 0⟩,
         Span.textSpan ⟨⟨1, 0, 2, 1⟩, "cd".toList, 0⟩]⟩ []).2
    (by decide) (by decide) _ _ rfl
  exact h.trans (by decide)

end Theorems

end Pdf2Docx
